import Mathlib

/-
Verification of the incremental response-assembly engine of the
heymaaz/t3.chat.cloneathon repository.

The embedding translates the Convex backend functions
(`convex/chatQueriesAndMutations.ts`, the unnamed file part_004, and
`convex/chat.ts`) into pure Lean functions:

* a JS string is modelled as a `List Char` (one element per code unit),
  so `s.substring(0, n)` is `List.take n` and `s.length` is `List.length`;
* the Convex tables are modelled as functions from numeric ids to
  `Option` records; `ctx.db.patch` on an existing row is a record
  update, and the claims are stated for existing rows;
* provider calls (OpenAI upload, vector-store calls) are oracles passed
  in as explicit environments;
* a mutation that can `console.warn` returns the new state together
  with the list of emitted warnings; a handler that can `throw` returns
  an `Except`.

Record fields that no claim reads (uploadedFileNames, uploadedFiles,
vectorStoreFileIds on messages, model, thinkingIntensity, timezone,
webSearchEnabled) are omitted from the records to keep the model small;
none of the translated control flow inspects them.
-/

namespace T3Clone

/-- JS strings are modelled as lists of characters. -/
abbrev Str := List Char

/-- `MAX_MESSAGE_SIZE = 50 * 1024` from chatQueriesAndMutations (part_004 line 16). -/
def MAX_MESSAGE_SIZE : Nat := 50 * 1024

/-- `MAX_FILES = 10` from convex/constants.ts. -/
def MAX_FILES : Nat := 10

/-- `MAX_FILE_SIZE = 10 * 1024 * 1024` from convex/constants.ts. -/
def MAX_FILE_SIZE : Nat := 10 * 1024 * 1024

/-- `SUPPORTED_FILE_TYPES = ["txt", "pdf", "docx"]` from convex/constants.ts. -/
def SUPPORTED_FILE_TYPES : List String := ["txt", "pdf", "docx"]

/-- Message lifecycle status (schema field `status`). -/
inductive MsgStatus where
  | typing
  | completed
  | error
deriving DecidableEq, Repr

/-- Message author (schema field `author`). -/
inductive Author where
  | user
  | assistant
deriving DecidableEq, Repr

/-- A stored citation: the tagged union from the schema
(`{type:"file", fileId, fileName}` or `{type:"url", url, title}`). -/
inductive Citation where
  | file (fileId : String) (fileName : String)
  | url (url : String) (title : String)
deriving DecidableEq, Repr

/-- A raw provider annotation event (`FileCitationAnnotation` or
`UrlCitationAnnotation` in convex/chat.ts); `filename` and `title` are
optional in the payload. The TS identifier for this union cannot be
used as a Lean name here, so the type is called `Annot`. -/
inductive Annot where
  | fileCitation (fileId : String) (filename : Option String)
  | urlCitation (url : String) (title : Option String)
deriving DecidableEq, Repr

/-- Dedup key of a citation: file id for file citations, url for url
citations (spec section 3, Citation). -/
inductive CitKey where
  | fileKey (fileId : String)
  | urlKey (url : String)
deriving DecidableEq, Repr

/-- Key of a stored citation. -/
def citKey : Citation → CitKey
  | .file fileId _ => .fileKey fileId
  | .url url _ => .urlKey url

/-- Key of a raw annotation event. -/
def annotKey : Annot → CitKey
  | .fileCitation fileId _ => .fileKey fileId
  | .urlCitation url _ => .urlKey url

/-- The citation an annotation event would append, with the source
defaults (`annotation.filename || "unknown"`, `annotation.title ||
"Web Result"`). -/
def annotToCitation : Annot → Citation
  | .fileCitation fileId filename => .file fileId (filename.getD "unknown")
  | .urlCitation url title => .url url (title.getD "Web Result")

/-- `citations.some((c) => c.type === "file" && c.fileId === fileId)`
from convex/chat.ts. -/
def hasFileCitation (citations : List Citation) (fileId : String) : Bool :=
  citations.any fun c =>
    match c with
    | .file f _ => f == fileId
    | .url _ _ => false

/-- `citations.some((c) => c.type === "url" && c.url === url)`
from convex/chat.ts. -/
def hasUrlCitation (citations : List Citation) (url : String) : Bool :=
  citations.any fun c =>
    match c with
    | .url u _ => u == url
    | .file _ _ => false

/-- One step of the citation accumulation in generateAiResponse
(convex/chat.ts lines 265-301 and 313-345: the same check-then-push
code runs for mid-stream `output_text.done` annotations and for the
final `completed` event annotations). -/
def addAnnot (citations : List Citation) : Annot → List Citation
  | .fileCitation fileId filename =>
      if hasFileCitation citations fileId then citations
      else citations ++ [.file fileId (filename.getD "unknown")]
  | .urlCitation url title =>
      if hasUrlCitation citations url then citations
      else citations ++ [.url url (title.getD "Web Result")]

/-- Feeding a whole sequence of annotation events to the accumulator. -/
def accumAnnots (citations : List Citation) (anns : List Annot) : List Citation :=
  anns.foldl addAnnot citations

/-- The size-bounded content concatenation of appendMessageContent
(part_004 lines 556-575), parameterised by the cap so that the spec
example with cap 10 can be stated; the mutation uses
`cap = MAX_MESSAGE_SIZE`. The JS check `remainingSpace <= 0` is on a
possibly negative difference, hence the `Int` subtraction. -/
def appendContentCap (cap : Nat) (content delta : Str) : Str :=
  let newContent := content ++ delta
  if cap < newContent.length then
    let remainingSpace : Int := (cap : Int) - (content.length : Int)
    if remainingSpace ≤ 0 then content
    else content ++ delta.take remainingSpace.toNat
  else newContent

/-- A conversations row (schema table `conversations`). -/
structure Conversation where
  userId : Nat
  name : String
  lastResponseId : Option String
  vectorStoreId : Option String
  updatedTime : Option Nat
deriving DecidableEq, Repr

/-- A messages row (schema table `messages`); fields no claim reads are
omitted, see the file header. -/
structure Message where
  conversationId : Nat
  author : Author
  content : Str
  status : Option MsgStatus
  openaiResponseId : Option String
  reasoningSummary : Option Str
  citations : Option (List Citation)
deriving DecidableEq, Repr

/-- The document store: the two tables the claims touch, as partial
maps from numeric row ids. -/
structure Db where
  conversations : Nat → Option Conversation
  messages : Nat → Option Message

/-- `ctx.db.patch(messageId, ...)` with a full replacement record
(the patched record is computed by the caller). -/
def setMessage (db : Db) (messageId : Nat) (m : Message) : Db :=
  { db with messages := fun i => if i = messageId then some m else db.messages i }

/-- `ctx.db.insert("messages", ...)`; the fresh row id is passed in
explicitly. -/
def insertMessage (db : Db) (newId : Nat) (m : Message) : Db :=
  setMessage db newId m

/-- `ctx.db.patch(conversationId, ...)` applying `f` to the stored row.
Convex raises on a missing row; the claims are stated for existing
rows, and a missing row is modelled as a no-op. -/
def patchConversation (db : Db) (conversationId : Nat) (f : Conversation → Conversation) : Db :=
  { db with conversations := fun i =>
      if i = conversationId then (db.conversations i).map f else db.conversations i }

/-- `new !== undefined ? new : old`: the conditional field copy used to
build `updateData` in markMessageComplete. -/
def patchOpt (new old : Option α) : Option α :=
  match new with
  | some v => some v
  | none => old

/-- The record update performed by markMessageComplete (part_004 lines
634-664) on the fetched message: status becomes `completed` and the
optional arguments overwrite their fields only when supplied. -/
def markMessageCompleteMsg (m : Message) (openaiResponseId : Option String)
    (reasoningSummary : Option Str) (citations : Option (List Citation)) : Message :=
  { m with
    status := some .completed,
    openaiResponseId := patchOpt openaiResponseId m.openaiResponseId,
    reasoningSummary := patchOpt reasoningSummary m.reasoningSummary,
    citations := patchOpt citations m.citations }

/-- The record update performed by markMessageError (part_004 lines
686-688): only `status` is patched, to `error`; the mutation takes no
other argument. -/
def markMessageErrorMsg (m : Message) : Message :=
  { m with status := some .error }

/-- The record update performed by updateReasoningSummary (part_004
lines 711-713). -/
def updateReasoningSummaryMsg (m : Message) (reasoningSummary : Str) : Message :=
  { m with reasoningSummary := some reasoningSummary }

/-- The record update performed by appendMessageContent on the fetched
message, with the mutation cap: see `appendContentCap`. -/
def appendMessageContentMsg (m : Message) (delta : Str) : Message :=
  { m with content := appendContentCap MAX_MESSAGE_SIZE m.content delta }

/-- appendMessageContent (part_004 lines 538-578): looks the message
up; a missing row is a warned no-op; an append that would exceed
`MAX_MESSAGE_SIZE` stores only the prefix of the delta that fits (a
warned truncation) or nothing if the message is already full. Returns
the new store and the emitted warnings. -/
def appendMessageContentDb (db : Db) (messageId : Nat) (content : Str) : Db × List String :=
  match db.messages messageId with
  | none => (db, ["Message not found for appending."])
  | some message =>
    let newContent := message.content ++ content
    if MAX_MESSAGE_SIZE < newContent.length then
      let remainingSpace : Int := (MAX_MESSAGE_SIZE : Int) - (message.content.length : Int)
      if remainingSpace ≤ 0 then
        (db, ["Message would exceed size limit, truncating..."])
      else
        (setMessage db messageId
          { message with content := message.content ++ content.take remainingSpace.toNat },
         ["Message would exceed size limit, truncating..."])
    else
      (setMessage db messageId { message with content := newContent }, [])

/-- markMessageComplete (part_004 lines 581-667): a missing row is a
warned no-op; otherwise the message is patched as in
`markMessageCompleteMsg`. The conversation table is not touched. -/
def markMessageCompleteDb (db : Db) (messageId : Nat) (openaiResponseId : Option String)
    (reasoningSummary : Option Str) (citations : Option (List Citation)) : Db × List String :=
  match db.messages messageId with
  | none => (db, ["Message not found for marking as complete."])
  | some message =>
    (setMessage db messageId
      (markMessageCompleteMsg message openaiResponseId reasoningSummary citations), [])

/-- markMessageError (part_004 lines 670-691): a missing row is a
warned no-op; otherwise only `status` is patched to `error`. -/
def markMessageErrorDb (db : Db) (messageId : Nat) : Db × List String :=
  match db.messages messageId with
  | none => (db, ["Message not found for marking as error."])
  | some message => (setMessage db messageId (markMessageErrorMsg message), [])

/-- Arguments of storeUserMessage that the model keeps. -/
structure StoreUserMessageArgs where
  conversationId : Nat
  content : Str

/-- storeUserMessage (part_004 lines 489-535): inserts the user row
and then patches the conversation with `updatedTime := Date.now()`;
`now` stands for `Date.now()` and `newId` for the id Convex assigns. -/
def storeUserMessageDb (db : Db) (newId now : Nat) (args : StoreUserMessageArgs) : Db :=
  let db1 := insertMessage db newId
    { conversationId := args.conversationId,
      author := .user,
      content := args.content,
      status := none,
      openaiResponseId := none,
      reasoningSummary := none,
      citations := none }
  patchConversation db1 args.conversationId fun c => { c with updatedTime := some now }

/-- A sequence of appendMessageContent calls on one message. -/
def runAppendsDb (db : Db) (messageId : Nat) (deltas : List Str) : Db :=
  deltas.foldl (fun d delta => (appendMessageContentDb d messageId delta).1) db

/-- `response.output_text` item inside a `completed` event payload
(`OutputTextContent` in convex/chat.ts); the raw `annotations` field
may be absent. -/
structure OutputTextContent where
  type : String
  annots : Option (List Annot)
deriving DecidableEq, Repr

/-- One item of `event.response.output` in a `completed` event
(`ResponseOutput` in convex/chat.ts). -/
structure ResponseOutput where
  type : String
  content : Option (List OutputTextContent)
deriving DecidableEq, Repr

/-- The provider stream events generateAiResponse dispatches on
(convex/chat.ts lines 222-376). `outputTextDone` carries the optional
annotations of the `response.output_text.done` payload; `completed`
carries `event.response.output`. -/
inductive StreamEvent where
  | created (responseId : String)
  | outputTextDelta (delta : Str)
  | reasoningSummaryTextDelta (delta : Str)
  | reasoningSummaryTextDone (text : Str)
  | outputTextDone (annots : Option (List Annot))
  | completed (output : List ResponseOutput)
deriving DecidableEq, Repr

/-- Whether an event is the top-level `response.completed` event. -/
def StreamEvent.isCompleted : StreamEvent → Bool
  | .completed _ => true
  | _ => false

/-- Whether an event is a `response.output_text.delta` whose payload is
whitespace only; non-delta events count as whitespace. -/
def StreamEvent.isWhitespaceDelta : StreamEvent → Bool
  | .outputTextDelta d => d.all Char.isWhitespace
  | _ => true

/-- JS `String.prototype.trim`: strip leading and trailing whitespace. -/
def jsTrim (s : Str) : Str :=
  ((s.dropWhile Char.isWhitespace).reverse.dropWhile Char.isWhitespace).reverse

/-- The citation extraction of the `response.completed` handler
(convex/chat.ts lines 305-350): walk `response.output`, and for every
`message` item walk its `output_text` contents, feeding each present
annotation to the accumulator. -/
def citationsFromOutput (citations : List Citation) (output : List ResponseOutput) :
    List Citation :=
  output.foldl
    (fun acc item =>
      if item.type == "message" then
        match item.content with
        | some contents =>
          contents.foldl
            (fun acc2 c =>
              if c.type == "output_text" then
                match c.annots with
                | some anns => anns.foldl addAnnot acc2
                | none => acc2
              else acc2)
            acc
        | none => acc
      else acc)
    citations

/-- The state one generateAiResponse turn threads through its streaming
loop: the owning conversation row, the placeholder assistant message
row (both assumed to survive the turn), and the local accumulators
`fullContent`, `openaiResponseId`, `reasoningSummary`, `citations`. -/
structure TurnState where
  conversation : Conversation
  message : Message
  fullContent : Str
  openaiResponseId : String
  reasoningSummary : Str
  citations : List Citation
deriving Repr

/-- Turn state right after storeAiMessage created the placeholder
(convex/chat.ts lines 160-220): empty typing message, empty
accumulators. The message row id is irrelevant at this level and the
conversationId field of the row is fixed to 0. -/
def initTurnState (conversation : Conversation) : TurnState :=
  { conversation := conversation,
    message :=
      { conversationId := 0,
        author := .assistant,
        content := [],
        status := some .typing,
        openaiResponseId := none,
        reasoningSummary := none,
        citations := none },
    fullContent := [],
    openaiResponseId := "",
    reasoningSummary := [],
    citations := [] }

/-- One iteration of the `for await (const event of response)` loop
(convex/chat.ts lines 222-381). Returns the new state and whether the
loop `break`s (only the `completed` handler breaks). Mutations on the
placeholder message are applied through the message-level updates of
the corresponding internal mutations. -/
def processEvent (s : TurnState) : StreamEvent → TurnState × Bool
  | .created responseId => ({ s with openaiResponseId := responseId }, false)
  | .outputTextDelta delta =>
      ({ s with
          fullContent := s.fullContent ++ delta,
          message := appendMessageContentMsg s.message delta }, false)
  | .reasoningSummaryTextDelta delta =>
      let rs := s.reasoningSummary ++ delta
      ({ s with reasoningSummary := rs,
                message := updateReasoningSummaryMsg s.message rs }, false)
  | .reasoningSummaryTextDone text =>
      let rs := s.reasoningSummary ++ text
      ({ s with reasoningSummary := rs,
                message := updateReasoningSummaryMsg s.message rs }, false)
  | .outputTextDone annots =>
      ({ s with citations := (annots.getD []).foldl addAnnot s.citations }, false)
  | .completed output =>
      let cits := citationsFromOutput s.citations output
      let trimmed := jsTrim s.reasoningSummary
      ({ s with
          citations := cits,
          message := markMessageCompleteMsg s.message
            (some s.openaiResponseId)
            (if trimmed.isEmpty then none else some trimmed)
            (if 0 < cits.length then some cits else none),
          conversation := { s.conversation with lastResponseId := some s.openaiResponseId } },
       true)

/-- The streaming loop: fold the events, stopping after the handler
that breaks. -/
def runEvents (s : TurnState) : List StreamEvent → TurnState
  | [] => s
  | e :: rest =>
    match processEvent s e with
    | (s', true) => s'
    | (s', false) => runEvents s' rest

/-- The post-loop check of generateAiResponse (convex/chat.ts lines
383-392): `if (!fullContent.trim())` the message is marked as error. -/
def finishTurn (s : TurnState) : TurnState :=
  if (jsTrim s.fullContent).isEmpty then { s with message := markMessageErrorMsg s.message }
  else s

/-- A whole turn whose transport raises no exception: the streaming
loop followed by the empty-content check. -/
def runTurn (s : TurnState) (events : List StreamEvent) : TurnState :=
  finishTurn (runEvents s events)

/-- The inner catch of generateAiResponse (convex/chat.ts lines
393-411), taken when the transport raises: append an apology to the
placeholder and mark it as error; the conversation row is not
touched. -/
def errorFinalize (s : TurnState) : TurnState :=
  { s with message := markMessageErrorMsg (appendMessageContentMsg s.message
      "Sorry, I encountered an error while generating a response.".data) }

/-- A fileMessageMappings row (schema part_003 lines 67-88). The only
`fileType` value the schema admits is `"user_upload"`. -/
structure FileMapping where
  openaiFileId : String
  fileName : String
  fileType : String
  uploadedBy : Option Nat
  storageId : Option Nat
  fileMimeType : Option String
  fileSize : Option Nat
  firstUsedInConversationId : Option Nat
  firstUsedInMessageId : Option Nat
  uploadedAt : Nat
deriving DecidableEq, Repr

/-- Arguments of createUserFileMapping (part_004 lines 946-969). -/
structure FileMappingArgs where
  openaiFileId : String
  fileName : String
  uploadedBy : Nat
  storageId : Nat
  fileMimeType : Option String
  fileSize : Option Nat
  firstUsedInConversationId : Option Nat
  firstUsedInMessageId : Option Nat
deriving DecidableEq, Repr

/-- createUserFileMapping (part_004 lines 946-996): look the file id up
through the `by_openaiFileId` index (`unique()` modelled as the first
match; the mutation itself keeps the ids unique) and insert only when
no entry exists; `now` stands for `Date.now()`. -/
def createUserFileMapping (table : List FileMapping) (now : Nat) (args : FileMappingArgs) :
    List FileMapping :=
  match table.find? (fun m => m.openaiFileId == args.openaiFileId) with
  | some _ => table
  | none =>
    table ++
      [{ openaiFileId := args.openaiFileId,
         fileName := args.fileName,
         fileType := "user_upload",
         uploadedBy := some args.uploadedBy,
         storageId := some args.storageId,
         fileMimeType := args.fileMimeType,
         fileSize := args.fileSize,
         firstUsedInConversationId := args.firstUsedInConversationId,
         firstUsedInMessageId := args.firstUsedInMessageId,
         uploadedAt := now }]

/-- The two distinguishable throws of findUserMessageByFileIdImpl:
`"Access denied: conversation does not belong to user"` and
`"Access denied: file was not uploaded by current user"`. -/
inductive FindUserMessageError where
  | conversationAccessDenied
  | fileAccessDenied
deriving DecidableEq, Repr

/-- Tail of findUserMessageByFileIdImpl after the
conversation-scope check (part_004 lines 1136-1152): the uploader
check for `user_upload` rows, then the `firstUsedInMessageId`
projection. -/
def findUserMessageRest (userId : Nat) (fm : FileMapping) :
    Except FindUserMessageError (Option (Nat × String)) :=
  if fm.fileType == "user_upload" ∧ fm.uploadedBy ≠ some userId then
    .error .fileAccessDenied
  else
    match fm.firstUsedInMessageId with
    | some messageId => .ok (some (messageId, fm.fileName))
    | none => .ok none

/-- findUserMessageByFileIdImpl (part_004 lines 1104-1153). The
requesting user is the already-authenticated caller. The checks run in
source order: conversation existence and ownership, index lookup,
originating-conversation scope, uploader, message projection. -/
def findUserMessageByFileIdImpl (conversations : Nat → Option Conversation)
    (mappings : List FileMapping) (userId conversationId : Nat) (openaiFileId : String) :
    Except FindUserMessageError (Option (Nat × String)) :=
  match conversations conversationId with
  | none => .error .conversationAccessDenied
  | some conversation =>
    if conversation.userId ≠ userId then .error .conversationAccessDenied
    else
      match mappings.find? (fun m => m.openaiFileId == openaiFileId) with
      | none => .ok none
      | some fm =>
        match fm.firstUsedInConversationId with
        | some c => if c ≠ conversationId then .ok none else findUserMessageRest userId fm
        | none => findUserMessageRest userId fm

/-- A `{storageId, fileName}` entry of `args.uploadedConvexFiles` in
uploadFileAndSendMessage. -/
structure UploadedConvexFile where
  storageId : Nat
  fileName : String
deriving DecidableEq, Repr

/-- Provider behaviour for one file: the outcome of
`openai.files.create` (an error message or the new provider file id)
and whether `openai.vectorStores.files.create` succeeds. -/
structure FileProviderEnv where
  uploadResult : Except String String
  vectorAddOk : Bool
deriving Repr

/-- The external world of one uploadFileAndSendMessage call:
`ctx.storage.get` (blob size when present), the outcome of
`openai.vectorStores.create` (`none` = the call throws), and the
per-file provider behaviour indexed by file position. -/
structure UploadEnv where
  storage : Nat → Option Nat
  vectorStoreCreated : Option String
  perFile : Nat → FileProviderEnv

/-- The characters after the last dot: `split(".").pop()` at the
character-list level (the whole name when no dot occurs). -/
def lastDotComponent : List Char → List Char → List Char
  | [], acc => acc
  | c :: rest, acc =>
    if c = '.' then lastDotComponent rest [] else lastDotComponent rest (acc ++ [c])

/-- `toLowerCase`, written with structural recursion over the
characters so that it evaluates by reduction. -/
def strToLower (s : String) : String := String.mk (s.data.map Char.toLower)

/-- `fileName.split(".").pop()?.toLowerCase()` from the upload loop;
`split` always returns a nonempty array, so the value is always
present. -/
def jsExtension (fileName : String) : Option String :=
  some (strToLower (String.mk (lastDotComponent fileName.data [])))

/-- isSupportedFileExtension from convex/constants.ts: falsy (absent or
empty) extensions are unsupported, otherwise membership in the
lowercase whitelist. -/
def isSupportedFileExtension : Option String → Bool
  | none => false
  | some ext => if ext = "" then false else SUPPORTED_FILE_TYPES.contains (strToLower ext)

/-- `File ... has unsupported type ... Skipping.` -/
def unsupportedTypeError (fileName : String) : String :=
  "File " ++ fileName ++ " has unsupported type. Skipping."

/-- `File with Convex storage ID ... not found. Skipping.` -/
def storageNotFoundError : String :=
  "File with Convex storage ID not found. Skipping."

/-- `File ... is too large ... Skipping.` -/
def tooLargeError (fileName : String) : String :=
  "File " ++ fileName ++ " is too large. Skipping."

/-- `Failed to upload file ... to OpenAI: ...` -/
def uploadFailedError (fileName msg : String) : String :=
  "Failed to upload file " ++ fileName ++ " to OpenAI: " ++ msg

/-- `Failed to add file ... to search index` -/
def indexAddFailedError (fileName : String) : String :=
  "Failed to add file " ++ fileName ++ " to search index"

/-- `File ... uploaded but not searchable due to vector store creation failure` -/
def notSearchableError (fileName : String) : String :=
  "File " ++ fileName ++ " uploaded but not searchable due to vector store creation failure"

/-- `Failed to create vector store for file search` -/
def vectorStoreCreateError : String :=
  "Failed to create vector store for file search"

/-- `Failed to process any of the uploaded files for OpenAI. All files encountered errors.` -/
def allFilesFailedError : String :=
  "Failed to process any of the uploaded files for OpenAI. All files encountered errors."

/-- `Too many files uploaded.` -/
def tooManyFilesError : String :=
  "Too many files uploaded."

/-- The per-file accumulators of the upload loop (convex/chat.ts lines
462-507); `uploadedFilesMapping` is dropped, no claim reads it. -/
structure FileLoopState where
  errors : List String
  uploadedIds : List String
  originalFileNames : List String
  vectorStoreFileIds : List String
deriving DecidableEq, Repr

/-- One iteration of the upload loop (convex/chat.ts lines 547-639):
extension whitelist, blob presence, size bound, provider upload, then
the vector-store attach with its inner catch. On a successful creation
the local conversation object is kept in sync, so after the creation
step `conversation.vectorStoreId` is falsy exactly when
`vectorStoreId` is `none`. -/
def processOneFile (env : UploadEnv) (vectorStoreId : Option String)
    (st : FileLoopState) (i : Nat) (f : UploadedConvexFile) : FileLoopState :=
  if !(isSupportedFileExtension (jsExtension f.fileName)) then
    { st with errors := st.errors ++ [unsupportedTypeError f.fileName] }
  else
    match env.storage f.storageId with
    | none => { st with errors := st.errors ++ [storageNotFoundError] }
    | some fileSize =>
      if MAX_FILE_SIZE < fileSize then
        { st with errors := st.errors ++ [tooLargeError f.fileName] }
      else
        match (env.perFile i).uploadResult with
        | .error msg => { st with errors := st.errors ++ [uploadFailedError f.fileName msg] }
        | .ok fileId =>
          match vectorStoreId with
          | some _ =>
            if (env.perFile i).vectorAddOk then
              { st with
                uploadedIds := st.uploadedIds ++ [fileId],
                originalFileNames := st.originalFileNames ++ [f.fileName],
                vectorStoreFileIds := st.vectorStoreFileIds ++ [fileId] }
            else
              { st with
                errors := st.errors ++ [indexAddFailedError f.fileName],
                uploadedIds := st.uploadedIds ++ [fileId],
                originalFileNames := st.originalFileNames ++ [f.fileName] }
          | none =>
            { st with
              errors := st.errors ++ [notSearchableError f.fileName],
              uploadedIds := st.uploadedIds ++ [fileId],
              originalFileNames := st.originalFileNames ++ [f.fileName] }

/-- The vector-store creation step (convex/chat.ts lines 516-544):
reuse the conversation handle; otherwise, when there are files, create
one, pushing an error when the provider call throws. -/
def createVectorStoreStep (env : UploadEnv) (conversation : Conversation)
    (files : List UploadedConvexFile) : Option String × List String :=
  match conversation.vectorStoreId with
  | some v => (some v, [])
  | none =>
    if 0 < files.length then
      match env.vectorStoreCreated with
      | some vsid => (some vsid, [])
      | none => (none, [vectorStoreCreateError])
    else (none, [])

/-- The loop state after the whole per-file loop of one
uploadFileAndSendMessage call. -/
def uploadLoopFinal (env : UploadEnv) (conversation : Conversation)
    (files : List UploadedConvexFile) : FileLoopState :=
  let step := createVectorStoreStep env conversation files
  files.enum.foldl (fun st p => processOneFile env step.1 st p.1 p.2)
    { errors := step.2,
      uploadedIds := [],
      originalFileNames := [],
      vectorStoreFileIds := [] }

/-- What a non-throwing uploadFileAndSendMessage call returns and does:
the returned `{success, errors}` value, the provider file ids stored on
the user message, and whether the user message was stored and the AI
turn scheduled. -/
structure UploadOutcome where
  success : Bool
  errors : List String
  storedFileIds : List String
  storedUserMessage : Bool
  scheduledAiResponse : Bool
deriving DecidableEq, Repr

/-- uploadFileAndSendMessage (convex/chat.ts lines 426-723) from the
file-count validation on, for an authenticated caller owning
`conversation` and a supported model: the file loop, the
all-files-failed throw (lines 641-657), and the unconditional tail
that stores the user message and schedules generateAiResponse. -/
def uploadFileAndSendMessage (env : UploadEnv) (conversation : Conversation)
    (files : List UploadedConvexFile) : Except String UploadOutcome :=
  if MAX_FILES < files.length then .error tooManyFilesError
  else
    if (uploadLoopFinal env conversation files).uploadedIds.length = 0
        ∧ 0 < files.length then
      if (uploadLoopFinal env conversation files).errors.length = files.length then
        .error allFilesFailedError
      else
        .ok { success := true,
              errors := (uploadLoopFinal env conversation files).errors,
              storedFileIds := (uploadLoopFinal env conversation files).uploadedIds,
              storedUserMessage := true, scheduledAiResponse := true }
    else
      .ok { success := true,
            errors := (uploadLoopFinal env conversation files).errors,
            storedFileIds := (uploadLoopFinal env conversation files).uploadedIds,
            storedUserMessage := true, scheduledAiResponse := true }

/-- A conversation whose continuation token is `"old"`, used to observe
token writes across one turn. -/
def exConvC1 : Conversation :=
  { userId := 7, name := "chat", lastResponseId := some "old",
    vectorStoreId := none, updatedTime := none }

/-- A stream that ends cleanly (`created` then `completed`) without any
content delta. -/
def exEventsC1 : List StreamEvent := [.created "r1", .completed []]

/-- An empty typing placeholder row. -/
def exMsgEmpty : Message :=
  { conversationId := 1, author := .assistant, content := [], status := some .typing,
    openaiResponseId := none, reasoningSummary := none, citations := none }

/-- A store holding only the placeholder `exMsgEmpty` at message id 0. -/
def exDbC2 : Db :=
  { conversations := fun _ => none,
    messages := fun i => if i = 0 then some exMsgEmpty else none }

/-- A typing assistant row with content `"hi"`. -/
def exMsgC5 : Message :=
  { conversationId := 1, author := .assistant, content := "hi".data, status := some .typing,
    openaiResponseId := none, reasoningSummary := none, citations := none }

/-- A conversation whose activity timestamp is 5. -/
def exConvC5 : Conversation :=
  { userId := 7, name := "chat", lastResponseId := none,
    vectorStoreId := none, updatedTime := some 5 }

/-- A store holding `exConvC5` at conversation id 1 and `exMsgC5` at
message id 0. -/
def exDbC5 : Db :=
  { conversations := fun i => if i = 1 then some exConvC5 else none,
    messages := fun i => if i = 0 then some exMsgC5 else none }

/-- A store holding only `exMsgEmpty` at message id 3. -/
def exDbC6 : Db :=
  { conversations := fun _ => none,
    messages := fun i => if i = 3 then some exMsgEmpty else none }

/-- The store with no rows at all. -/
def emptyDb : Db :=
  { conversations := fun _ => none, messages := fun _ => none }

/-- A conversation owned by user 10. -/
def exConvC7 : Conversation :=
  { userId := 10, name := "chat", lastResponseId := none,
    vectorStoreId := none, updatedTime := none }

/-- An index entry uploaded by user 99 whose first use was in
conversation 2. -/
def exMappingC7 : FileMapping :=
  { openaiFileId := "file-1", fileName := "a.pdf", fileType := "user_upload",
    uploadedBy := some 99, storageId := some 4, fileMimeType := none, fileSize := none,
    firstUsedInConversationId := some 2, firstUsedInMessageId := some 5, uploadedAt := 0 }

/-- An index entry uploaded by user 99 whose first use was in
conversation 1. -/
def exMappingC7b : FileMapping :=
  { exMappingC7 with firstUsedInConversationId := some 1 }

/-- File-mapping arguments for provider file id `"file-1"` from
uploader 10. -/
def exArgsC8 : FileMappingArgs :=
  { openaiFileId := "file-1", fileName := "a.pdf", uploadedBy := 10, storageId := 4,
    fileMimeType := none, fileSize := none,
    firstUsedInConversationId := some 1, firstUsedInMessageId := some 2 }

/-- A second record call for the same provider file id with a different
uploader, blob reference, name and context. -/
def exArgsC8b : FileMappingArgs :=
  { openaiFileId := "file-1", fileName := "other.pdf", uploadedBy := 99, storageId := 77,
    fileMimeType := some "application/pdf", fileSize := some 3,
    firstUsedInConversationId := some 9, firstUsedInMessageId := some 8 }

/-- An upload world in which file 0 uploads fine but its vector-store
attach fails, and every blob has size 100. -/
def exEnvC10 : UploadEnv :=
  { storage := fun sid => if sid = 1 then some 100 else if sid = 2 then some 100 else none,
    vectorStoreCreated := none,
    perFile := fun i =>
      if i = 0 then { uploadResult := .ok "f1", vectorAddOk := false }
      else { uploadResult := .error "unused", vectorAddOk := true } }

/-- A conversation that already owns a vector store. -/
def exConvC10 : Conversation :=
  { userId := 7, name := "chat", lastResponseId := none,
    vectorStoreId := some "vs", updatedTime := none }

/-- Two files: a supported text file and an unsupported executable. -/
def exFilesC10 : List UploadedConvexFile :=
  [{ storageId := 1, fileName := "a.txt" }, { storageId := 2, fileName := "b.exe" }]

/-- Record eta: replacing the content of a message by itself is the
identity. -/
theorem msg_content_eta (m : Message) : { m with content := m.content } = m := rfl

/-- Below the cap, the size-checked concatenation is concatenation
truncated at the cap. -/
theorem appendContentCap_of_le (cap : Nat) (c d : Str) (h : c.length ≤ cap) :
    appendContentCap cap c d = (c ++ d).take cap := by
  simp only [appendContentCap]
  split
  · rename_i hlt
    split
    · rename_i hle
      have hc : c.length = cap := by
        simp only [List.length_append] at hlt
        omega
      subst hc
      rw [List.take_append_eq_append_take, List.take_length, Nat.sub_self, List.take_zero,
        List.append_nil]
    · rename_i hgt
      have h1 : ((cap : Int) - (c.length : Int)).toNat = cap - c.length := by omega
      rw [h1, List.take_append_eq_append_take, List.take_of_length_le h]
  · rename_i hge
    rw [List.take_of_length_le (by omega)]

/-- The size-checked concatenation keeps the content below the cap. -/
theorem appendContentCap_length_le (cap : Nat) (c d : Str) (h : c.length ≤ cap) :
    (appendContentCap cap c d).length ≤ cap := by
  rw [appendContentCap_of_le cap c d h, List.length_take]
  omega

/-- A saturated message swallows every further delta unchanged. -/
theorem appendContentCap_saturated (cap : Nat) (c d : Str) (h : cap ≤ c.length) :
    appendContentCap cap c d = c := by
  simp only [appendContentCap]
  split
  · rename_i hlt
    rw [if_pos (by omega)]
  · rename_i hge
    simp only [List.length_append, not_lt] at hge
    have hd : d.length = 0 := by omega
    rw [List.length_eq_zero.mp hd, List.append_nil]

/-- Truncating the left part at `n` does not change a take at `n` of
the concatenation. -/
theorem take_append_take (x y : Str) (n : Nat) :
    (x.take n ++ y).take n = (x ++ y).take n := by
  rw [List.take_append_eq_append_take, List.take_append_eq_append_take, List.take_take,
    Nat.min_self, List.length_take]
  have h : n - min n x.length = n - x.length := by omega
  rw [h]

/-- appendMessageContent patches the stored row by the size-checked
concatenation (message present). -/
theorem appendMessageContentDb_messages (db : Db) (mid : Nat) (m : Message) (d : Str)
    (h : db.messages mid = some m) :
    (appendMessageContentDb db mid d).1.messages mid
      = some { m with content := appendContentCap MAX_MESSAGE_SIZE m.content d } := by
  simp only [appendMessageContentDb, h, appendContentCap]
  split
  · rename_i hlt
    split
    · rename_i hle
      rw [h, msg_content_eta]
    · rename_i hgt
      simp [setMessage]
  · rename_i hge
    simp [setMessage]

/-- A sequence of appendMessageContent calls stores the concatenation
of the prior content and all deltas, truncated at the cap. -/
theorem runAppendsDb_messages (deltas : List Str) (db : Db) (mid : Nat) (m : Message)
    (h : db.messages mid = some m) (hlen : m.content.length ≤ MAX_MESSAGE_SIZE) :
    (runAppendsDb db mid deltas).messages mid
      = some { m with content := (m.content ++ deltas.flatten).take MAX_MESSAGE_SIZE } := by
  induction deltas generalizing db m with
  | nil =>
    simp only [runAppendsDb, List.foldl_nil, List.flatten_nil, List.append_nil]
    rw [h, List.take_of_length_le hlen]
  | cons delta rest ih =>
    have hstep := appendMessageContentDb_messages db mid m delta h
    rw [appendContentCap_of_le _ _ _ hlen] at hstep
    have hlen' : ({ m with content := (m.content ++ delta).take MAX_MESSAGE_SIZE } :
        Message).content.length ≤ MAX_MESSAGE_SIZE := by
      simp only [List.length_take]
      omega
    have hrest := ih ((appendMessageContentDb db mid delta).1) _ hstep hlen'
    simp only [runAppendsDb, List.foldl_cons] at hrest ⊢
    rw [hrest]
    simp only [List.flatten_cons]
    rw [take_append_take, List.append_assoc]

/-- Claim C2: for every message and every sequence of
appendMessageContent calls on it, the stored content equals the
concatenation of all deltas truncated at `MAX_MESSAGE_SIZE` (the
overflowing delta contributes only the prefix that fits); an append to
an already-saturated message leaves the stored row unchanged; and the
spec example with cap 10 and deltas `["hello ", "world", "!!!"]` stores
`"hello worl"`, the third append having no effect. The embedding is
total, so no call throws. -/
theorem claim_C2 :
    (∀ (db : Db) (mid : Nat) (m : Message) (deltas : List Str),
        db.messages mid = some m → m.content = [] →
        (runAppendsDb db mid deltas).messages mid
          = some { m with content := deltas.flatten.take MAX_MESSAGE_SIZE })
    ∧ (∀ (db : Db) (mid : Nat) (m : Message) (d : Str),
        db.messages mid = some m → MAX_MESSAGE_SIZE ≤ m.content.length →
        (appendMessageContentDb db mid d).1.messages mid = some m)
    ∧ (List.foldl (appendContentCap 10) [] ["hello ".data, "world".data, "!!!".data]
          = "hello worl".data
        ∧ appendContentCap 10 "hello worl".data "!!!".data = "hello worl".data) := by
  refine ⟨?_, ?_, by decide, by decide⟩
  · intro db mid m deltas h hc
    have := runAppendsDb_messages deltas db mid m h (by rw [hc]; simp)
    rwa [hc, List.nil_append] at this
  · intro db mid m d h hsat
    rw [appendMessageContentDb_messages db mid m d h, appendContentCap_saturated _ _ _ hsat,
      msg_content_eta]

/-- Claim C2 witness: the fold law applied to the concrete store
`exDbC2` and the single delta `"hi"`. -/
theorem claim_C2_witness :
    (runAppendsDb exDbC2 0 ["hi".data]).messages 0
      = some { exMsgEmpty with content := ["hi".data].flatten.take MAX_MESSAGE_SIZE } :=
  claim_C2.1 exDbC2 0 exMsgEmpty ["hi".data] rfl rfl

/-- The boolean membership test of the file dedup check agrees with key
membership. -/
theorem hasFileCitation_true_iff (cs : List Citation) (fid : String) :
    hasFileCitation cs fid = true ↔ CitKey.fileKey fid ∈ cs.map citKey := by
  simp only [hasFileCitation, List.any_eq_true, List.mem_map]
  constructor
  · rintro ⟨c, hc, hp⟩
    refine ⟨c, hc, ?_⟩
    cases c with
    | file f n => simp only [beq_iff_eq] at hp; simp [citKey, hp]
    | url u t => simp at hp
  · rintro ⟨c, hc, hk⟩
    refine ⟨c, hc, ?_⟩
    cases c with
    | file f n => simp only [citKey, CitKey.fileKey.injEq] at hk; simp [hk]
    | url u t => simp [citKey] at hk

/-- The boolean membership test of the url dedup check agrees with key
membership. -/
theorem hasUrlCitation_true_iff (cs : List Citation) (u : String) :
    hasUrlCitation cs u = true ↔ CitKey.urlKey u ∈ cs.map citKey := by
  simp only [hasUrlCitation, List.any_eq_true, List.mem_map]
  constructor
  · rintro ⟨c, hc, hp⟩
    refine ⟨c, hc, ?_⟩
    cases c with
    | url v t => simp only [beq_iff_eq] at hp; simp [citKey, hp]
    | file f n => simp at hp
  · rintro ⟨c, hc, hk⟩
    refine ⟨c, hc, ?_⟩
    cases c with
    | url v t => simp only [citKey, CitKey.urlKey.injEq] at hk; simp [hk]
    | file f n => simp [citKey] at hk

/-- Claim C3: the citation accumulation drops an event whose key (file
id for file citations, url for url citations) was already seen, so the
first-seen name wins; an unseen key appends its citation at the end
(first-seen order) with the defaults `"unknown"` and `"Web Result"` for
missing names; and the spec example sequence yields exactly the two
citations `file(f1,"a.pdf")` and `url(u1,"t1")`. The same `addAnnot`
code runs for mid-stream `output_text.done` events and for the final
`completed` event, so a completed-event duplicate of a mid-stream
citation is dropped. -/
theorem claim_C3 :
    (∀ (cs : List Citation) (a : Annot),
        annotKey a ∈ cs.map citKey → addAnnot cs a = cs)
    ∧ (∀ (cs : List Citation) (a : Annot),
        annotKey a ∉ cs.map citKey → addAnnot cs a = cs ++ [annotToCitation a])
    ∧ accumAnnots []
        [Annot.fileCitation "f1" (some "a.pdf"),
         Annot.fileCitation "f1" (some "a.pdf"),
         Annot.urlCitation "u1" (some "t1"),
         Annot.fileCitation "f1" (some "renamed.pdf")]
        = [Citation.file "f1" "a.pdf", Citation.url "u1" "t1"] := by
  refine ⟨?_, ?_, by decide⟩
  · intro cs a h
    cases a with
    | fileCitation fid n =>
      simp only [annotKey] at h
      simp [addAnnot, (hasFileCitation_true_iff cs fid).mpr h]
    | urlCitation u t =>
      simp only [annotKey] at h
      simp [addAnnot, (hasUrlCitation_true_iff cs u).mpr h]
  · intro cs a h
    cases a with
    | fileCitation fid n =>
      simp only [annotKey] at h
      have : hasFileCitation cs fid = false := by
        rw [← Bool.not_eq_true, hasFileCitation_true_iff]
        exact h
      simp [addAnnot, this, annotToCitation]
    | urlCitation u t =>
      simp only [annotKey] at h
      have : hasUrlCitation cs u = false := by
        rw [← Bool.not_eq_true, hasUrlCitation_true_iff]
        exact h
      simp [addAnnot, this, annotToCitation]

/-- Claim C3 witness: a later completed-event annotation with the
already-seen file id `f1` is dropped, keeping the first-seen name. -/
theorem claim_C3_witness :
    addAnnot [Citation.file "f1" "a.pdf"] (Annot.fileCitation "f1" (some "renamed.pdf"))
      = [Citation.file "f1" "a.pdf"] :=
  claim_C3.1 [Citation.file "f1" "a.pdf"] (Annot.fileCitation "f1" (some "renamed.pdf"))
    (by decide)

/-- Every handler except the `completed` one leaves the conversation
row alone and lets the loop continue. -/
theorem processEvent_not_completed (s : TurnState) (e : StreamEvent)
    (h : e.isCompleted = false) :
    (processEvent s e).1.conversation = s.conversation ∧ (processEvent s e).2 = false := by
  cases e <;> simp_all [processEvent, StreamEvent.isCompleted]

/-- The empty-content check never touches the conversation row. -/
theorem finishTurn_conversation (s : TurnState) :
    (finishTurn s).conversation = s.conversation := by
  unfold finishTurn
  split <;> rfl

/-- A streaming loop that never reaches a `completed` event leaves the
conversation row unchanged. -/
theorem runEvents_conversation_of_no_completed (events : List StreamEvent) (s : TurnState)
    (h : events.all (fun e => !e.isCompleted)) :
    (runEvents s events).conversation = s.conversation := by
  induction events generalizing s with
  | nil => rfl
  | cons e rest ih =>
    simp only [List.all_cons, Bool.and_eq_true, Bool.not_eq_true'] at h
    rcases hE : processEvent s e with ⟨s', b⟩
    have hp := processEvent_not_completed s e h.1
    rw [hE] at hp
    simp only at hp
    rw [runEvents, hE, hp.2]
    simp only
    rw [ih s' h.2, hp.1]

/-- Once a `completed` event is processed, the conversation row holds
some continuation token. -/
theorem runEvents_lastResponseId_of_completed (events : List StreamEvent) (s : TurnState)
    (h : events.any StreamEvent.isCompleted) :
    ∃ r, (runEvents s events).conversation.lastResponseId = some r := by
  induction events generalizing s with
  | nil => simp at h
  | cons e rest ih =>
    by_cases hc : e.isCompleted
    · cases e <;> simp [StreamEvent.isCompleted] at hc
      exact ⟨s.openaiResponseId, by simp [runEvents, processEvent]⟩
    · have h' : rest.any StreamEvent.isCompleted := by
        simp only [List.any_cons, Bool.or_eq_true] at h
        rcases h with h | h
        · exact absurd h hc
        · exact h
      rcases hE : processEvent s e with ⟨s', b⟩
      have hp := processEvent_not_completed s e (by simpa using hc)
      rw [hE] at hp
      simp only at hp
      rw [runEvents, hE, hp.2]
      simpa using ih s' h'

/-- Claim C1 (amended): the continuation token is unchanged by the
transport-exception finalization and by any turn whose stream ends
without a `completed` event; once a `completed` event is processed the
token is set — even when the turn then finalizes the message as error
because the accumulated content is empty. -/
theorem claim_C1_amended :
    (∀ s : TurnState,
        (errorFinalize s).conversation.lastResponseId = s.conversation.lastResponseId)
    ∧ (∀ (s : TurnState) (events : List StreamEvent),
        events.all (fun e => !e.isCompleted) →
        (runTurn s events).conversation.lastResponseId = s.conversation.lastResponseId)
    ∧ (∀ (s : TurnState) (events : List StreamEvent),
        events.any StreamEvent.isCompleted →
        ∃ r, (runTurn s events).conversation.lastResponseId = some r) := by
  refine ⟨fun s => rfl, ?_, ?_⟩
  · intro s events h
    rw [runTurn, finishTurn_conversation, runEvents_conversation_of_no_completed events s h]
  · intro s events h
    obtain ⟨r, hr⟩ := runEvents_lastResponseId_of_completed events s h
    exact ⟨r, by rw [runTurn, finishTurn_conversation]; exact hr⟩

/-- Claim C1 counterexample: a stream that ends cleanly with zero
content deltas finalizes the assistant message as `error`, yet the
conversation continuation token has been overwritten from `"old"` to
the new id `"r1"` — the claim says an error-finalized turn leaves it
unchanged. -/
theorem claim_C1_counterexample :
    (runTurn (initTurnState exConvC1) exEventsC1).message.status = some MsgStatus.error
    ∧ (runTurn (initTurnState exConvC1) exEventsC1).conversation.lastResponseId = some "r1"
    ∧ exConvC1.lastResponseId = some "old"
    ∧ ¬ ((runTurn (initTurnState exConvC1) exEventsC1).conversation.lastResponseId
          = exConvC1.lastResponseId) := by decide

/-- Claim C1 witness: a stream holding only a `created` event leaves
the token of `exConvC1` unchanged. -/
theorem claim_C1_witness :
    (runTurn (initTurnState exConvC1) [StreamEvent.created "x"]).conversation.lastResponseId
      = (initTurnState exConvC1).conversation.lastResponseId :=
  claim_C1_amended.2.1 (initTurnState exConvC1) [StreamEvent.created "x"] (by decide)

/-- A loop whose remaining delta events are whitespace-only keeps the
accumulated content whitespace-only. -/
theorem runEvents_fullContent_whitespace (events : List StreamEvent) (s : TurnState)
    (h : events.all StreamEvent.isWhitespaceDelta)
    (hs : s.fullContent.all Char.isWhitespace) :
    (runEvents s events).fullContent.all Char.isWhitespace := by
  induction events generalizing s with
  | nil => simpa [runEvents] using hs
  | cons e rest ih =>
    simp only [List.all_cons, Bool.and_eq_true] at h
    cases e with
    | outputTextDelta d =>
      simp only [runEvents, processEvent]
      exact ih _ h.2 (by
        simp only [List.all_append, Bool.and_eq_true]
        exact ⟨hs, by simpa [StreamEvent.isWhitespaceDelta] using h.1⟩)
    | created rid =>
      simp only [runEvents, processEvent]
      exact ih _ h.2 hs
    | reasoningSummaryTextDelta d =>
      simp only [runEvents, processEvent]
      exact ih _ h.2 hs
    | reasoningSummaryTextDone t =>
      simp only [runEvents, processEvent]
      exact ih _ h.2 hs
    | outputTextDone anns =>
      simp only [runEvents, processEvent]
      exact ih _ h.2 hs
    | completed out =>
      simpa [runEvents, processEvent] using hs

/-- Trimming a whitespace-only string gives the empty string. -/
theorem jsTrim_isEmpty_of_all_whitespace (s : Str) (h : s.all Char.isWhitespace = true) :
    (jsTrim s).isEmpty = true := by
  have h1 : s.dropWhile Char.isWhitespace = [] :=
    List.dropWhile_eq_nil_iff.mpr (by simpa [List.all_eq_true] using h)
  simp [jsTrim, h1]

/-- Claim C4: a turn whose stream yields no content delta (more
generally, only whitespace deltas) and then a clean `completed` event
finalizes the assistant message with status `error`, not `completed`
with empty content. -/
theorem claim_C4 (conversation : Conversation) (events : List StreamEvent)
    (h1 : events.all StreamEvent.isWhitespaceDelta)
    (_h2 : events.any StreamEvent.isCompleted) :
    (runTurn (initTurnState conversation) events).message.status = some MsgStatus.error := by
  have hfc := runEvents_fullContent_whitespace events (initTurnState conversation) h1
    (by simp [initTurnState])
  rw [runTurn, finishTurn, if_pos (jsTrim_isEmpty_of_all_whitespace _ hfc)]
  rfl

/-- Claim C4 witness: the clean two-event stream `exEventsC1` has no
content delta, and its turn indeed finalizes as `error`. -/
theorem claim_C4_witness :
    (runTurn (initTurnState exConvC1) exEventsC1).message.status = some MsgStatus.error :=
  claim_C4 exConvC1 exEventsC1 (by decide) (by decide)

/-- Claim C5 counterexample: markMessageComplete leaves the whole
conversations table pointwise identical — it patches only the message
row — so the activity timestamp of the owning conversation (here still
5, with no current-time argument even available to the mutation) is
not written on a successful assistant completion, contrary to the
claim. -/
theorem claim_C5_counterexample :
    (markMessageCompleteDb exDbC5 0 (some "r1") none none).1.conversations
        = exDbC5.conversations
    ∧ (markMessageCompleteDb exDbC5 0 (some "r1") none none).1.conversations 1
        = some exConvC5
    ∧ exConvC5.updatedTime = some 5 :=
  ⟨rfl, rfl, rfl⟩

/-- Claim C5 (amended): every user-message insert writes the owning
conversation activity timestamp to the current time and changes no
other conversation field and no other conversation row; per-delta
content appends and markMessageComplete leave the conversations table
untouched. -/
theorem claim_C5_amended :
    (∀ (db : Db) (newId now : Nat) (args : StoreUserMessageArgs) (c : Conversation),
        db.conversations args.conversationId = some c →
        (storeUserMessageDb db newId now args).conversations args.conversationId
          = some { c with updatedTime := some now })
    ∧ (∀ (db : Db) (newId now : Nat) (args : StoreUserMessageArgs) (j : Nat),
        j ≠ args.conversationId →
        (storeUserMessageDb db newId now args).conversations j = db.conversations j)
    ∧ (∀ (db : Db) (mid : Nat) (r : Option String) (rs : Option Str)
        (cits : Option (List Citation)),
        (markMessageCompleteDb db mid r rs cits).1.conversations = db.conversations)
    ∧ (∀ (db : Db) (mid : Nat) (d : Str),
        (appendMessageContentDb db mid d).1.conversations = db.conversations) := by
  refine ⟨?_, ?_, ?_, ?_⟩
  · intro db newId now args c h
    simp [storeUserMessageDb, patchConversation, insertMessage, setMessage, h]
  · intro db newId now args j hj
    simp [storeUserMessageDb, patchConversation, insertMessage, setMessage, hj]
  · intro db mid r rs cits
    unfold markMessageCompleteDb
    split <;> rfl
  · intro db mid d
    unfold appendMessageContentDb
    split
    · rfl
    · dsimp only
      split
      · split <;> rfl
      · rfl

/-- Claim C5 witness: inserting a user message at time 99 into
`exDbC5` rewrites the timestamp of conversation 1 from 5 to 99, and
conversation 2 is untouched. -/
theorem claim_C5_witness :
    ((storeUserMessageDb exDbC5 5 99 { conversationId := 1, content := "yo".data }).conversations 1
        = some { exConvC5 with updatedTime := some 99 })
    ∧ ((storeUserMessageDb exDbC5 5 99
          { conversationId := 1, content := "yo".data }).conversations 2
        = exDbC5.conversations 2) :=
  ⟨claim_C5_amended.1 exDbC5 5 99 { conversationId := 1, content := "yo".data } exConvC5 rfl,
   claim_C5_amended.2.1 exDbC5 5 99 { conversationId := 1, content := "yo".data } 2 (by decide)⟩

/-- Claim C6: evaluating markMessageError at a present message shows it
patches only `status` to `error`; the mutation takes no error-detail
argument and neither the messages schema nor the stored row carries
one, so no user-visible error detail is stored. The second conjunct
spells out every stored field of the result. -/
theorem claim_C6_code_eval :
    (markMessageErrorDb exDbC6 3).1.messages 3
        = some { exMsgEmpty with status := some MsgStatus.error }
    ∧ (markMessageErrorDb exDbC6 3).1.messages 3
        = some { conversationId := 1, author := .assistant, content := [],
                 status := some MsgStatus.error, openaiResponseId := none,
                 reasoningSummary := none, citations := none } :=
  ⟨rfl, rfl⟩

/-- Claim C9: when the message row no longer exists, each of
appendMessageContent, markMessageComplete and markMessageError returns
the store unchanged together with one warning, and (being total
functions) raises nothing. -/
theorem claim_C9 (db : Db) (mid : Nat) (d : Str) (r : Option String) (rs : Option Str)
    (cits : Option (List Citation)) (h : db.messages mid = none) :
    appendMessageContentDb db mid d = (db, ["Message not found for appending."])
    ∧ markMessageCompleteDb db mid r rs cits
        = (db, ["Message not found for marking as complete."])
    ∧ markMessageErrorDb db mid = (db, ["Message not found for marking as error."]) := by
  refine ⟨?_, ?_, ?_⟩ <;>
    simp [appendMessageContentDb, markMessageCompleteDb, markMessageErrorDb, h]

/-- Claim C9 witness: the three mutations on the empty store. -/
theorem claim_C9_witness :
    appendMessageContentDb emptyDb 0 "x".data = (emptyDb, ["Message not found for appending."])
    ∧ markMessageCompleteDb emptyDb 0 none none none
        = (emptyDb, ["Message not found for marking as complete."])
    ∧ markMessageErrorDb emptyDb 0 = (emptyDb, ["Message not found for marking as error."]) :=
  claim_C9 emptyDb 0 "x".data none none none rfl

/-- Claim C7 counterexample: the index entry exists, its uploader (99)
differs from the requesting user (10), yet the lookup returns
`Except.ok none` rather than the access-denied error, because the
originating conversation (2) differs from the requested one (1) and
that scope check runs before the uploader check. -/
theorem claim_C7_counterexample :
    findUserMessageByFileIdImpl (fun i => if i = 1 then some exConvC7 else none)
        [exMappingC7] 10 1 "file-1" = Except.ok none
    ∧ exMappingC7.uploadedBy ≠ some 10
    ∧ exMappingC7.firstUsedInConversationId = some 2 :=
  ⟨rfl, by decide, rfl⟩

/-- Claim C7 (amended): for a requester owning the queried
conversation, the lookup returns `ok none` (not an error) when no entry
exists for the file id; returns `ok none` when the entry records an
originating conversation different from the requested one — whoever
the uploader is, since the scope check precedes the uploader check;
and raises the distinguishable file access-denied error when the entry
passes the conversation scope (no originating conversation recorded,
or equal to the requested one) and its uploader differs from the
requesting user. -/
theorem claim_C7_amended :
    (∀ (conversations : Nat → Option Conversation) (mappings : List FileMapping)
        (userId conversationId : Nat) (fid : String) (c : Conversation),
        conversations conversationId = some c → c.userId = userId →
        mappings.find? (fun m => m.openaiFileId == fid) = none →
        findUserMessageByFileIdImpl conversations mappings userId conversationId fid
          = Except.ok none)
    ∧ (∀ (conversations : Nat → Option Conversation) (mappings : List FileMapping)
        (userId conversationId : Nat) (fid : String) (c : Conversation)
        (fm : FileMapping) (c' : Nat),
        conversations conversationId = some c → c.userId = userId →
        mappings.find? (fun m => m.openaiFileId == fid) = some fm →
        fm.firstUsedInConversationId = some c' → c' ≠ conversationId →
        findUserMessageByFileIdImpl conversations mappings userId conversationId fid
          = Except.ok none)
    ∧ (∀ (conversations : Nat → Option Conversation) (mappings : List FileMapping)
        (userId conversationId : Nat) (fid : String) (c : Conversation)
        (fm : FileMapping),
        conversations conversationId = some c → c.userId = userId →
        mappings.find? (fun m => m.openaiFileId == fid) = some fm →
        (fm.firstUsedInConversationId = none
          ∨ fm.firstUsedInConversationId = some conversationId) →
        fm.fileType = "user_upload" → fm.uploadedBy ≠ some userId →
        findUserMessageByFileIdImpl conversations mappings userId conversationId fid
          = Except.error FindUserMessageError.fileAccessDenied) := by
  refine ⟨?_, ?_, ?_⟩
  · intro conversations mappings userId conversationId fid c hc hu hfind
    simp [findUserMessageByFileIdImpl, hc, hu, hfind]
  · intro conversations mappings userId conversationId fid c fm c' hc hu hfind hfu hne
    simp [findUserMessageByFileIdImpl, hc, hu, hfind, hfu, hne]
  · intro conversations mappings userId conversationId fid c fm hc hu hfind hscope hft hupl
    have hrest : findUserMessageRest userId fm
        = Except.error FindUserMessageError.fileAccessDenied := by
      rw [findUserMessageRest, if_pos ⟨by simp [hft], hupl⟩]
    rcases hscope with hnone | hsame
    · simp [findUserMessageByFileIdImpl, hc, hu, hfind, hnone, hrest]
    · simp [findUserMessageByFileIdImpl, hc, hu, hfind, hsame, hrest]

/-- Claim C7 witness: the same foreign uploader inside the queried
conversation does raise the file access-denied error. -/
theorem claim_C7_witness :
    findUserMessageByFileIdImpl (fun i => if i = 1 then some exConvC7 else none)
        [exMappingC7b] 10 1 "file-1"
      = Except.error FindUserMessageError.fileAccessDenied :=
  claim_C7_amended.2.2 (fun i => if i = 1 then some exConvC7 else none) [exMappingC7b]
    10 1 "file-1" exConvC7 exMappingC7b rfl rfl (by decide) (Or.inr rfl) rfl (by decide)

/-- A createUserFileMapping call leaves some entry for its file id in
the table. -/
theorem createUserFileMapping_finds (table : List FileMapping) (now : Nat)
    (a : FileMappingArgs) :
    ((createUserFileMapping table now a).find?
        (fun m => m.openaiFileId == a.openaiFileId)).isSome := by
  rcases hfind : table.find? (fun m => m.openaiFileId == a.openaiFileId) with _ | fm
  · simp only [createUserFileMapping, hfind]
    rw [List.find?_append, hfind]
    simp [List.find?]
  · simp only [createUserFileMapping, hfind]
    simp [hfind]

/-- Claim C8: record is first-writer-wins — a second createUserFileMapping
call with the same provider file id, whatever its other arguments and
timestamp, returns the table of the first call unchanged, so the first
entry keeps every field. -/
theorem claim_C8 (table : List FileMapping) (now1 now2 : Nat) (a1 a2 : FileMappingArgs)
    (h : a2.openaiFileId = a1.openaiFileId) :
    createUserFileMapping (createUserFileMapping table now1 a1) now2 a2
      = createUserFileMapping table now1 a1 := by
  obtain ⟨fm, hfm⟩ :=
    Option.isSome_iff_exists.mp (createUserFileMapping_finds table now1 a1)
  rw [createUserFileMapping]
  rw [show (fun (m : FileMapping) => m.openaiFileId == a2.openaiFileId)
        = (fun m => m.openaiFileId == a1.openaiFileId) from by rw [h]]
  rw [hfm]

/-- Claim C8 witness: recording `"file-1"` twice with different
uploader, blob reference, name and context keeps the table of the
first call. -/
theorem claim_C8_witness :
    createUserFileMapping (createUserFileMapping [] 100 exArgsC8) 200 exArgsC8b
      = createUserFileMapping [] 100 exArgsC8 :=
  claim_C8 [] 100 200 exArgsC8 exArgsC8b rfl

/-- Every iteration of the upload loop grows the error list or the
uploaded-id list. -/
theorem processOneFile_count (env : UploadEnv) (vsid : Option String)
    (st : FileLoopState) (i : Nat) (f : UploadedConvexFile) :
    st.errors.length + st.uploadedIds.length + 1
      ≤ (processOneFile env vsid st i f).errors.length
        + (processOneFile env vsid st i f).uploadedIds.length := by
  rcases hp : processOneFile env vsid st i f with ⟨errs, ups, onames, vsf⟩
  dsimp only
  unfold processOneFile at hp
  repeat' split at hp
  all_goals cases hp
  all_goals simp only [List.length_append, List.length_cons, List.length_nil]
  all_goals omega

/-- Summed over the loop, every processed file contributes at least one
error entry or one uploaded id. -/
theorem uploadLoop_count (env : UploadEnv) (vsid : Option String)
    (ps : List (Nat × UploadedConvexFile)) (st : FileLoopState) :
    st.errors.length + st.uploadedIds.length + ps.length
      ≤ (ps.foldl (fun st p => processOneFile env vsid st p.1 p.2) st).errors.length
        + (ps.foldl (fun st p => processOneFile env vsid st p.1 p.2) st).uploadedIds.length := by
  induction ps generalizing st with
  | nil => simp
  | cons p rest ih =>
    simp only [List.foldl_cons, List.length_cons]
    have h1 := processOneFile_count env vsid st p.1 p.2
    have h2 := ih (processOneFile env vsid st p.1 p.2)
    omega

/-- Claim C10 counterexample: two files, of which only `b.exe` fails
(unsupported type) while `a.txt` uploads fine but cannot be attached to
the search index; the call returns success with the single uploaded id
yet carries two error strings — not one error string per failed file as
the claim states. -/
theorem claim_C10_counterexample :
    uploadFileAndSendMessage exEnvC10 exConvC10 exFilesC10
      = Except.ok { success := true,
                    errors := [indexAddFailedError "a.txt", unsupportedTypeError "b.exe"],
                    storedFileIds := ["f1"],
                    storedUserMessage := true, scheduledAiResponse := true }
    ∧ exFilesC10.length = 2
    ∧ [indexAddFailedError "a.txt", unsupportedTypeError "b.exe"].length = 2 :=
  ⟨rfl, rfl, rfl⟩

/-- Claim C10 (amended): for at most `MAX_FILES` files, the call throws
only when every supplied file failed (no provider file id was
obtained); whenever at least one file succeeds it returns
`{success := true, errors}`, still stores the user message with the
uploaded ids and still schedules the AI turn; and the error list holds
at least one entry per failed file (it may hold more: vector-store
errors are also recorded for files that succeeded). -/
theorem claim_C10_amended :
    (∀ (env : UploadEnv) (conversation : Conversation) (files : List UploadedConvexFile)
        (e : String),
        files.length ≤ MAX_FILES →
        uploadFileAndSendMessage env conversation files = Except.error e →
        (uploadLoopFinal env conversation files).uploadedIds = [])
    ∧ (∀ (env : UploadEnv) (conversation : Conversation) (files : List UploadedConvexFile),
        files.length ≤ MAX_FILES →
        (uploadLoopFinal env conversation files).uploadedIds ≠ [] →
        uploadFileAndSendMessage env conversation files
          = Except.ok { success := true,
                        errors := (uploadLoopFinal env conversation files).errors,
                        storedFileIds := (uploadLoopFinal env conversation files).uploadedIds,
                        storedUserMessage := true, scheduledAiResponse := true })
    ∧ (∀ (env : UploadEnv) (conversation : Conversation) (files : List UploadedConvexFile),
        files.length ≤ (uploadLoopFinal env conversation files).errors.length
          + (uploadLoopFinal env conversation files).uploadedIds.length) := by
  refine ⟨?_, ?_, ?_⟩
  · intro env conversation files e hmax herr
    rw [uploadFileAndSendMessage, if_neg (by omega)] at herr
    split at herr
    · rename_i hcond
      exact List.length_eq_zero.mp hcond.1
    · exact absurd herr (by simp)
  · intro env conversation files hmax hne
    rw [uploadFileAndSendMessage, if_neg (by omega),
      if_neg (fun hcond => hne (List.length_eq_zero.mp hcond.1))]
  · intro env conversation files
    have h := uploadLoop_count env (createVectorStoreStep env conversation files).1
      files.enum
      { errors := (createVectorStoreStep env conversation files).2,
        uploadedIds := [], originalFileNames := [], vectorStoreFileIds := [] }
    rw [List.enum_length] at h
    simp only [uploadLoopFinal]
    omega

/-- Claim C10 witness: on the concrete run `exEnvC10`/`exFilesC10` one
file succeeded, so the call returns success with the loop error list. -/
theorem claim_C10_witness :
    uploadFileAndSendMessage exEnvC10 exConvC10 exFilesC10
      = Except.ok { success := true,
                    errors := (uploadLoopFinal exEnvC10 exConvC10 exFilesC10).errors,
                    storedFileIds := (uploadLoopFinal exEnvC10 exConvC10 exFilesC10).uploadedIds,
                    storedUserMessage := true, scheduledAiResponse := true } :=
  claim_C10_amended.2.1 exEnvC10 exConvC10 exFilesC10 (by decide) (by decide)

end T3Clone
